import Mathlib

/-!
Verification development for the esp-cpa core (`src/lib.rs`,
`src/correlation_engine.rs`, `src/power_consumption_models.rs`).

The AES primitive module (`mod aes`, file `aes.rs`) and the OpenCL kernel
source (`correlation.cl`) are not part of the sources under review; where a
definition depends on them, it is modelled from the specification and the
accompanying doc comment starts with "Modelled from the spec".

Floating-point values (`f64`) are embedded as real numbers; `powf` is the
real power `Real.rpow`.  Machine bytes are embedded as natural numbers kept
below 256 by the operations themselves.
-/

/-- Errors observable from the core.  `ePanic` models a Rust panic (an
out-of-bounds slice index); pyo3 surfaces a panic as an exception while the
object keeps the state it had at the moment of the panic.  The remaining
constructors model gracefully returned errors: `eShape` is the ocl host-slice
length mismatch reported when a buffer is built from a slice whose length
differs from the declared buffer length, `eZeroSize` is the OpenCL rejection
of a zero-sized buffer (CL_INVALID_BUFFER_SIZE), `eEmpty` is the "No results"
error of `get_result`, and `eConfig` carries the message of a `PyTypeError`
raised during solver construction. -/
inductive CpaError where
  | eShape
  | eZeroSize
  | ePanic
  | eEmpty
  | eConfig (msg : String)
  deriving DecidableEq, Repr

deriving instance DecidableEq for Except

/-- Fuel-driven binary popcount.  With fuel at least the bit length of `n`
this computes the number of set bits of `n`. -/
def count_ones_fuel : Nat → Nat → Nat
  | 0, _ => 0
  | fuel + 1, n => if n = 0 then 0 else n % 2 + count_ones_fuel fuel (n / 2)

/-- Rust `count_ones` (popcount) on a nonnegative machine integer.  Fuel `n`
is at least the bit length of `n`, so the recursion always finishes. -/
def count_ones (n : Nat) : Nat :=
  count_ones_fuel n n

/-- Modelled from the spec: the AES module (`aes.rs`) is not under `src/`.
Doubling in GF(2^8) modulo the irreducible polynomial 0x11B. -/
def xtime (x : Nat) : Nat :=
  if x &&& 0x80 = 0 then (2 * x) % 256 else ((2 * x) % 256) ^^^ 0x1B

/-- Russian-peasant step for GF(2^8) multiplication, iterating over the bits
of the second operand. -/
def gmulAux : Nat → Nat → Nat → Nat
  | 0, _, _ => 0
  | fuel + 1, a, b => (if b &&& 1 = 1 then a else 0) ^^^ gmulAux fuel (xtime a) (b / 2)

/-- Modelled from the spec: multiplication in GF(2^8) modulo 0x11B. -/
def gmul (a b : Nat) : Nat := gmulAux 8 a b

/-- Modelled from the spec: Galois multiplier by 2. -/
def gal2 (b : Nat) : Nat := gmul b 2

/-- Modelled from the spec: Galois multiplier by 3. -/
def gal3 (b : Nat) : Nat := gmul b 3

/-- Modelled from the spec: Galois multiplier by 9. -/
def gal9 (b : Nat) : Nat := gmul b 9

/-- Modelled from the spec: Galois multiplier by 11. -/
def gal11 (b : Nat) : Nat := gmul b 11

/-- Modelled from the spec: Galois multiplier by 13. -/
def gal13 (b : Nat) : Nat := gmul b 13

/-- Modelled from the spec: Galois multiplier by 14. -/
def gal14 (b : Nat) : Nat := gmul b 14

/-- Powers in GF(2^8). -/
def gpow (b : Nat) : Nat → Nat
  | 0 => 1
  | n + 1 => gmul b (gpow b n)

/-- Multiplicative inverse in GF(2^8) with `0 ↦ 0`, computed as `b ^ 254`. -/
def ginv (b : Nat) : Nat := gpow b 254

/-- Rotate an 8-bit value left by `n` positions. -/
def rotl8 (x n : Nat) : Nat := ((x <<< n) ||| (x >>> (8 - n))) &&& 0xFF

/-- Modelled from the spec: the standard AES forward S-box, as the GF(2^8)
inverse followed by the standard affine transform. -/
def sbox (b : Nat) : Nat :=
  let s := ginv b
  s ^^^ rotl8 s 1 ^^^ rotl8 s 2 ^^^ rotl8 s 3 ^^^ rotl8 s 4 ^^^ 0x63

/-- Modelled from the spec: the standard AES inverse S-box, as the inverse
affine transform followed by the GF(2^8) inverse. -/
def inv_sbox (b : Nat) : Nat :=
  ginv (rotl8 b 1 ^^^ rotl8 b 3 ^^^ rotl8 b 6 ^^^ 0x05)

/-- Modelled from the spec: ShiftRows on the column-major 4x4 state
(`state[r + 4*c]`), row `r` rotated left by `r`. -/
def shift_rows (s : List Nat) : List Nat :=
  (List.range 16).map fun i => s.getD (i % 4 + 4 * ((i / 4 + i % 4) % 4)) 0

/-- Modelled from the spec: inverse ShiftRows, row `r` rotated right by
`r`. -/
def shift_rows_inv (s : List Nat) : List Nat :=
  (List.range 16).map fun i => s.getD (i % 4 + 4 * ((i / 4 + 4 - i % 4) % 4)) 0

/-- Modelled from the spec: SubBytes applies the S-box to all 16 bytes. -/
def sub_bytes (s : List Nat) : List Nat := s.map sbox

/-- Modelled from the spec: inverse SubBytes. -/
def sub_bytes_inv (s : List Nat) : List Nat := s.map inv_sbox

/-- Modelled from the spec: AddRoundKey XORs a 16-byte round key into the
state. -/
def add_round_key (s k : List Nat) : List Nat := s.zipWith (· ^^^ ·) k

/-- Modelled from the spec: MixColumns, standard AES column mixing in
GF(2^8). -/
def mix_columns (s : List Nat) : List Nat :=
  (List.range 16).map fun i =>
    let a := fun j => s.getD (4 * (i / 4) + j) 0
    match i % 4 with
    | 0 => gal2 (a 0) ^^^ gal3 (a 1) ^^^ a 2 ^^^ a 3
    | 1 => a 0 ^^^ gal2 (a 1) ^^^ gal3 (a 2) ^^^ a 3
    | 2 => a 0 ^^^ a 1 ^^^ gal2 (a 2) ^^^ gal3 (a 3)
    | _ => gal3 (a 0) ^^^ a 1 ^^^ a 2 ^^^ gal2 (a 3)

/-- Modelled from the spec: inverse MixColumns, using the Galois multipliers
by 9, 11, 13 and 14. -/
def mix_columns_inv (s : List Nat) : List Nat :=
  (List.range 16).map fun i =>
    let a := fun j => s.getD (4 * (i / 4) + j) 0
    match i % 4 with
    | 0 => gal14 (a 0) ^^^ gal11 (a 1) ^^^ gal13 (a 2) ^^^ gal9 (a 3)
    | 1 => gal9 (a 0) ^^^ gal14 (a 1) ^^^ gal11 (a 2) ^^^ gal13 (a 3)
    | 2 => gal13 (a 0) ^^^ gal9 (a 1) ^^^ gal14 (a 2) ^^^ gal11 (a 3)
    | _ => gal11 (a 0) ^^^ gal13 (a 1) ^^^ gal9 (a 2) ^^^ gal14 (a 3)

/-- Rust slice indexing `l[i]`: out of bounds is a panic. -/
def listIndex (l : List α) (i : Nat) : Except CpaError α :=
  match l[i]? with
  | some v => .ok v
  | none => .error .ePanic

/-- The 32-bit decryption T-table row packing
`gal9 i | gal11 i << 8 | gal13 i << 16 | gal14 i << 24`. -/
def ttable_pack (i : Nat) : Nat :=
  gal9 i ||| (gal11 i <<< 8) ||| (gal13 i <<< 16) ||| (gal14 i <<< 24)

/-- `struct ConsumptionModelRound0` of `power_consumption_models.rs`. -/
structure ConsumptionModelRound0 where
  beta_modifier : ℝ

/-- `ConsumptionModelRound0::estimate`:
`sbox(payload[index] ^ guess).count_ones() as f64`, raised to
`beta_modifier`. -/
noncomputable def ConsumptionModelRound0.estimate (m : ConsumptionModelRound0)
    (payload : List Nat) (guess index : Nat) : Except CpaError ℝ := do
  let b ← listIndex payload index
  let p : ℝ := (count_ones (sbox (b ^^^ guess)) : ℝ)
  .ok (p ^ m.beta_modifier)

/-- `struct ConsumptionModelRound1` of `power_consumption_models.rs`. -/
structure ConsumptionModelRound1 where
  beta_modifier : ℝ
  k0 : List Nat

/-- `ConsumptionModelRound1::estimate`: runs AddRoundKey, SubBytes,
ShiftRows, MixColumns on the payload, then takes the Hamming weight of
`sbox(state[index] ^ guess) ^ sbox(payload[index] ^ k0[index])`. -/
noncomputable def ConsumptionModelRound1.estimate (m : ConsumptionModelRound1)
    (payload : List Nat) (guess index : Nat) : Except CpaError ℝ := do
  let data := mix_columns (shift_rows (sub_bytes (add_round_key payload m.k0)))
  let b1 ← listIndex data index
  let b2 ← listIndex payload index
  let b3 ← listIndex m.k0 index
  let p : ℝ := (count_ones (sbox (b1 ^^^ guess) ^^^ sbox (b2 ^^^ b3)) : ℝ)
  .ok (p ^ m.beta_modifier)

/-- `struct ConsumptionModelRound0DecTable` of
`power_consumption_models.rs`. -/
structure ConsumptionModelRound0DecTable where
  beta_modifier : ℝ

/-- `ConsumptionModelRound0DecTable::estimate`: the T-table packing on
`i = inv_sbox(payload[index] ^ guess)`. -/
noncomputable def ConsumptionModelRound0DecTable.estimate
    (m : ConsumptionModelRound0DecTable) (payload : List Nat)
    (guess index : Nat) : Except CpaError ℝ := do
  let b ← listIndex payload index
  let i := inv_sbox (b ^^^ guess)
  .ok ((count_ones (ttable_pack i) : ℝ) ^ m.beta_modifier)

/-- `struct ConsumptionModelRound1DecTable` of
`power_consumption_models.rs`. -/
structure ConsumptionModelRound1DecTable where
  beta_modifier : ℝ
  tk0 : List Nat

/-- `ConsumptionModelRound1DecTable::estimate`: runs AddRoundKey,
ShiftRowsInv, SubBytesInv, MixColumnsInv on the payload, then the T-table
packing on `i = inv_sbox(state[index] ^ guess)`. -/
noncomputable def ConsumptionModelRound1DecTable.estimate
    (m : ConsumptionModelRound1DecTable) (payload : List Nat)
    (guess index : Nat) : Except CpaError ℝ := do
  let data := mix_columns_inv (sub_bytes_inv (shift_rows_inv (add_round_key payload m.tk0)))
  let b ← listIndex data index
  let i := inv_sbox (b ^^^ guess)
  .ok ((count_ones (ttable_pack i) : ℝ) ^ m.beta_modifier)

/-- The closed set of leakage models behind
`Box<dyn ConsumptionModelTrait>`. -/
inductive ConsumptionModel where
  | round0 (m : ConsumptionModelRound0)
  | round1 (m : ConsumptionModelRound1)
  | round0dectable (m : ConsumptionModelRound0DecTable)
  | round1dectable (m : ConsumptionModelRound1DecTable)

/-- Dynamic dispatch of `ConsumptionModelTrait::estimate`. -/
noncomputable def ConsumptionModel.estimate :
    ConsumptionModel → List Nat → Nat → Nat → Except CpaError ℝ
  | .round0 m => m.estimate
  | .round1 m => m.estimate
  | .round0dectable m => m.estimate
  | .round1dectable m => m.estimate

/-- `state_hamming_weight`: the sum over the 16 state bytes of their
popcounts, as an `f64`. -/
noncomputable def state_hamming_weight (state : List Nat) : ℝ :=
  (state.map fun c => (count_ones c : ℝ)).sum

/-- `ocl::Buffer::builder().len(len).copy_host_slice(host).build()`:
ocl first rejects a host slice whose length differs from the declared buffer
length, then the OpenCL driver rejects a zero-sized buffer
(CL_INVALID_BUFFER_SIZE). -/
def buildBuffer (len : Nat) (host : List α) : Except CpaError Unit :=
  if host.length ≠ len then .error .eShape
  else if len = 0 then .error .eZeroSize
  else .ok ()

/-- `struct OpenclCorrelationEngine`: `sample_duration` is `T`, `n_guesses`
is `H`, `last_n` the running trace count.  The device-side accumulator and
result buffers are a function of the batches successfully enqueued, recorded
here as `enqueued`: for each successful `update`, the flattened samples
buffer, the flattened guesses buffer, the batch size `n_samples`, and the
`last_n` argument passed to the kernel.  The element type of the device
buffers is kept generic: the engine never inspects the numeric values. -/
structure OpenclCorrelationEngine (α : Type) where
  sample_duration : Nat
  n_guesses : Nat
  last_n : Nat
  enqueued : List (List α × List α × Nat × Nat)
  deriving DecidableEq

/-- `OpenclCorrelationEngine::new(sample_duration, n_guesses)`: builds the
queue with dims `(n_guesses, sample_duration)` and allocates six `f64`
buffers of length `n_guesses * sample_duration`; allocation fails on a
zero-sized buffer, so construction succeeds exactly when
`n_guesses * sample_duration > 0`, with `last_n = 0` and nothing enqueued. -/
def OpenclCorrelationEngine.new (sample_duration n_guesses : Nat) :
    Except CpaError (OpenclCorrelationEngine α) :=
  if n_guesses * sample_duration = 0 then .error .eZeroSize
  else .ok ⟨sample_duration, n_guesses, 0, []⟩

/-- `OpenclCorrelationEngine::update(samples, guesses)`.  Reads
`n_samples = samples[0].len()` (a panic on an empty samples list), flattens
both matrices, builds the two read-only input buffers (of declared lengths
`sample_duration * n_samples` and `n_guesses * n_samples`), and only then
bumps `last_n` and enqueues the kernel.  Returned is the engine after the
call together with the call's result; on every failure the engine is
returned unchanged, because `last_n` is only written after both buffers have
been built. -/
def OpenclCorrelationEngine.update (e : OpenclCorrelationEngine α)
    (samples guesses : List (List α)) :
    OpenclCorrelationEngine α × Except CpaError Unit :=
  match samples with
  | [] => (e, .error .ePanic)
  | s0 :: rest =>
    let n_samples := s0.length
    let samples_vec := (s0 :: rest).flatten
    match buildBuffer (e.sample_duration * n_samples) samples_vec with
    | .error err => (e, .error err)
    | .ok _ =>
      let guesses_vec := guesses.flatten
      match buildBuffer (e.n_guesses * n_samples) guesses_vec with
      | .error err => (e, .error err)
      | .ok _ =>
        ({ e with
            last_n := e.last_n + n_samples,
            enqueued := e.enqueued ++ [(samples_vec, guesses_vec, n_samples, e.last_n)] },
         .ok ())

/-- Fuel-driven model of Rust `slice::chunks`: cuts `l` into consecutive
chunks of length `n` (the last one possibly shorter).  For `n ≥ 1` a fuel of
`l.length` always suffices. -/
def rustChunksAux : Nat → Nat → List α → List (List α)
  | 0, _, _ => []
  | _, _, [] => []
  | fuel + 1, n, x :: xs => ((x :: xs).take n) :: rustChunksAux fuel n ((x :: xs).drop n)

/-- Rust `slice::chunks n` for `n ≥ 1` (the only way the program calls
it). -/
def rustChunks (n : Nat) (l : List α) : List (List α) :=
  rustChunksAux l.length n l

/-- `Buffer::read(&mut result).enq()`: the readback overwrites the host
vector in place with the device contents, preserving the host vector's
length. -/
def readInto (dst src : List α) : List α :=
  src.take dst.length ++ dst.drop src.length

/-- `OpenclCorrelationEngine::get_result`: allocates a host vector of the
result buffer's length `n_guesses * sample_duration`, reads the device
result buffer (whose contents, produced by the kernel, are the `device`
argument) into it, and chunks it by `sample_duration`.  `chunks(0)` is a
Rust panic. -/
def OpenclCorrelationEngine.get_result [Inhabited α]
    (e : OpenclCorrelationEngine α) (device : List α) :
    Except CpaError (List (List α)) :=
  let result := readInto (List.replicate (e.n_guesses * e.sample_duration) default) device
  if e.sample_duration = 0 then .error .ePanic
  else .ok (rustChunks e.sample_duration result)

/-- Iterated `update` on an engine; a failed call leaves the engine
unchanged and the run continues with the next batch. -/
def runUpdates (e : OpenclCorrelationEngine α) :
    List (List (List α) × List (List α)) → OpenclCorrelationEngine α
  | [] => e
  | b :: bs => runUpdates (e.update b.1 b.2).1 bs

/-- Whether every `update` in the sequence of batches succeeds. -/
def allUpdatesOk (e : OpenclCorrelationEngine α) :
    List (List (List α) × List (List α)) → Bool
  | [] => true
  | b :: bs =>
    match e.update b.1 b.2 with
    | (e2, .ok _) => allUpdatesOk e2 bs
    | (_, .error _) => false

/-- `PyReadonlyArray2<f64>`: a two-dimensional numpy array.  Its shape
`(nrows, ncols)` is intrinsic (known even when a dimension is zero);
`entries` are its rows. -/
structure PyArray2 (α : Type) where
  nrows : Nat
  ncols : Nat
  entries : List (List α)

/-- Well-formedness of a numpy matrix: `entries` really is `nrows` rows of
`ncols` values each. -/
def PyArray2.wf (m : PyArray2 α) : Prop :=
  m.entries.length = m.nrows ∧ ∀ row ∈ m.entries, row.length = m.ncols

/-- `ndarray::columns()`: the sequence of the `ncols` columns, each of
length `nrows`. -/
def PyArray2.columns [Inhabited α] (m : PyArray2 α) : List (List α) :=
  (List.range m.ncols).map fun t => m.entries.map fun row => row.getD t default

/-- A python object handed through `py_kwargs`: either a `PyBytes` or
something a `downcast::<PyBytes>` rejects. -/
inductive PyObj where
  | bytes (data : List Nat)
  | other
  deriving DecidableEq

/-- A `PyDict` of keyword arguments. -/
abbrev PyDict := List (String × PyObj)

/-- `get_power_consumption_model(name, py_kwargs, beta_modifier)` of
`lib.rs`: selects one of the four models by name; the two round-1 variants
require a 16-byte `k0` (resp. `tk0`) in the kwargs, rejecting a missing
dict, a missing key, a non-bytes value and a wrong length with a
`PyTypeError` carrying the corresponding message. -/
def get_power_consumption_model (name : String) (py_kwargs : Option PyDict)
    (beta_modifier : ℝ) : Except CpaError ConsumptionModel :=
  if name = "round0" then
    .ok (.round0 ⟨beta_modifier⟩)
  else if name = "round0dectable" then
    .ok (.round0dectable ⟨beta_modifier⟩)
  else if name = "round1" then
    match py_kwargs with
    | none => .error (.eConfig "Missing argument k0")
    | some args =>
      match args.lookup "k0" with
      | none => .error (.eConfig "Missing argument k0")
      | some .other => .error (.eConfig "k0 has invalid type")
      | some (.bytes k0) =>
        if k0.length ≠ 16 then .error (.eConfig "k0 must be 16 bytes long")
        else .ok (.round1 ⟨beta_modifier, k0⟩)
  else if name = "round1dectable" then
    match py_kwargs with
    | none => .error (.eConfig "Missing argument tk0")
    | some args =>
      match args.lookup "tk0" with
      | none => .error (.eConfig "Missing argument tk0")
      | some .other => .error (.eConfig "tk0 has invalid type")
      | some (.bytes tk0) =>
        if tk0.length ≠ 16 then .error (.eConfig "tk0 must be 16 bytes long")
        else .ok (.round1dectable ⟨beta_modifier, tk0⟩)
  else
    .error (.eConfig "Unknown model name")

/-- `struct CpaSolver` of `lib.rs`. -/
structure CpaSolver where
  correlation_engine : Option (OpenclCorrelationEngine ℝ)
  power_consumption_model : ConsumptionModel
  k_index : Nat

/-- `CpaSolver::new`: builds the model from the arguments and creates the
solver with no correlation engine (the accelerator is not touched). -/
def CpaSolver.new (name : String) (k_index : Nat) (beta_modifier : ℝ)
    (py_kwargs : Option PyDict) : Except CpaError CpaSolver :=
  match get_power_consumption_model name py_kwargs beta_modifier with
  | .error e => .error e
  | .ok m => .ok ⟨none, m, k_index⟩

/-- Effectful `map` over a list, stopping at the first failure — the
behaviour of building a `Vec` from an iterator whose elements may panic. -/
def mapExcept (f : α → Except ε β) : List α → Except ε (List β)
  | [] => .ok []
  | a :: l => do
    let b ← f a
    let r ← mapExcept f l
    .ok (b :: r)

/-- Body of `CpaSolver::update` after the engine exists: builds the
hypothesis rows `Y[i][s] = model.estimate(payloads[s], i, k_index)` for
`i ∈ 0..256` (a panicking `estimate` aborts the call), collects the sample
columns, and forwards both to the engine.  `s` already holds the engine. -/
noncomputable def cpaUpdateBody (s : CpaSolver) (eng : OpenclCorrelationEngine ℝ)
    (payloads : List (List Nat)) (py_samples : PyArray2 ℝ) :
    CpaSolver × Except CpaError Unit :=
  match mapExcept
      (fun i => mapExcept (fun c => s.power_consumption_model.estimate c i s.k_index) payloads)
      (List.range 256) with
  | .error e => (s, .error e)
  | .ok guesses =>
    let samples := py_samples.columns
    match eng.update samples guesses with
    | (eng2, r) => ({ s with correlation_engine := some eng2 }, r)

/-- `CpaSolver::update(payloads, py_samples)`: lazily constructs the engine
on the first call with `T = py_samples.shape()[1]` and `H = 256` (a
construction failure is returned and the solver is left engineless), then
runs the body.  Returned is the solver state after the call together with
the call's result. -/
noncomputable def CpaSolver.update (s : CpaSolver) (payloads : List (List Nat))
    (py_samples : PyArray2 ℝ) : CpaSolver × Except CpaError Unit :=
  match s.correlation_engine with
  | some eng => cpaUpdateBody s eng payloads py_samples
  | none =>
    match OpenclCorrelationEngine.new py_samples.ncols 256 with
    | .error e => (s, .error e)
    | .ok eng => cpaUpdateBody { s with correlation_engine := some eng } eng payloads py_samples

/-- `CpaSolver::get_result`: fails with "No results" while no engine has
been constructed, otherwise reads the engine's result buffer (`device` is
the device-side contents produced by the kernel). -/
noncomputable def CpaSolver.get_result (s : CpaSolver) (device : List ℝ) :
    Except CpaError (List (List ℝ)) :=
  match s.correlation_engine with
  | none => .error .eEmpty
  | some eng => eng.get_result device

/-- `struct AssessmentSolver` of `lib.rs`. -/
structure AssessmentSolver where
  correlation_engine : Option (OpenclCorrelationEngine ℝ)
  keys : List (List Nat)

/-- `AssessmentSolver::new(keys)`: always succeeds, engine deferred. -/
def AssessmentSolver.new (keys : List (List Nat)) : AssessmentSolver :=
  ⟨none, keys⟩

/-- Body of `AssessmentSolver::update` after the engine exists: maps every
payload through `compute_all_states` and `state_hamming_weight`, swaps the
axes (indexing `s_power_consumption[0]` — a panic on an empty payload
batch), and forwards columns and hypothesis rows to the engine. -/
noncomputable def assessmentUpdateBody
    (compute_all_states : List Nat → List (List Nat) → List (List Nat))
    (s : AssessmentSolver) (eng : OpenclCorrelationEngine ℝ)
    (payloads : List (List Nat)) (py_samples : PyArray2 ℝ) :
    AssessmentSolver × Except CpaError Unit :=
  let s_power_consumption :=
    payloads.map fun c => (compute_all_states c s.keys).map state_hamming_weight
  match s_power_consumption with
  | [] => (s, .error .ePanic)
  | h0 :: rest =>
    let power_consumption :=
      (List.range h0.length).map fun x =>
        (h0 :: rest).map fun row => row.getD x 0
    let samples := py_samples.columns
    match eng.update samples power_consumption with
    | (eng2, r) => ({ s with correlation_engine := some eng2 }, r)

/-- `AssessmentSolver::update(payloads, py_samples)`.  The AES module's
`compute_all_states` is not under `src/`; modelled from the spec, it is
total and deterministic with an output length stable in `|keys|`, and is
taken here as an explicit parameter.  On the first call the engine is built
with `T = py_samples.shape()[1]` and `H` the state count for a dummy
payload. -/
noncomputable def AssessmentSolver.update
    (compute_all_states : List Nat → List (List Nat) → List (List Nat))
    (s : AssessmentSolver) (payloads : List (List Nat))
    (py_samples : PyArray2 ℝ) : AssessmentSolver × Except CpaError Unit :=
  match s.correlation_engine with
  | some eng => assessmentUpdateBody compute_all_states s eng payloads py_samples
  | none =>
    let dummy_payload := List.replicate 16 0
    let dummy_states := compute_all_states dummy_payload s.keys
    match OpenclCorrelationEngine.new py_samples.ncols dummy_states.length with
    | .error e => (s, .error e)
    | .ok eng =>
      assessmentUpdateBody compute_all_states
        { s with correlation_engine := some eng } eng payloads py_samples

/-- `AssessmentSolver::get_result`: same contract as the attack solver's. -/
noncomputable def AssessmentSolver.get_result (s : AssessmentSolver)
    (device : List ℝ) : Except CpaError (List (List ℝ)) :=
  match s.correlation_engine with
  | none => .error .eEmpty
  | some eng => eng.get_result device

/-- The value `ConsumptionModelTrait::estimate` returns on in-range inputs,
as a total function (out-of-range indices read the default 0 instead of
panicking). -/
noncomputable def ConsumptionModel.estimateVal :
    ConsumptionModel → List Nat → Nat → Nat → ℝ
  | .round0 m, payload, guess, index =>
      (count_ones (sbox (payload.getD index 0 ^^^ guess)) : ℝ) ^ m.beta_modifier
  | .round1 m, payload, guess, index =>
      let data := mix_columns (shift_rows (sub_bytes (add_round_key payload m.k0)))
      (count_ones (sbox (data.getD index 0 ^^^ guess) ^^^
        sbox (payload.getD index 0 ^^^ m.k0.getD index 0)) : ℝ) ^ m.beta_modifier
  | .round0dectable m, payload, guess, index =>
      (count_ones (ttable_pack (inv_sbox (payload.getD index 0 ^^^ guess))) : ℝ) ^ m.beta_modifier
  | .round1dectable m, payload, guess, index =>
      let data := mix_columns_inv (sub_bytes_inv (shift_rows_inv (add_round_key payload m.tk0)))
      (count_ones (ttable_pack (inv_sbox (data.getD index 0 ^^^ guess))) : ℝ) ^ m.beta_modifier

/-- The key stored in a model has the length `CpaSolver::new` guarantees
(only `round1` indexes its key in `estimate`). -/
def ConsumptionModel.wfKeys : ConsumptionModel → Prop
  | .round1 m => m.k0.length = 16
  | _ => True

set_option maxRecDepth 16384

/-- Sanity check of the spec-modelled S-box and its inverse against the
standard AES values used in the spec's conformance vectors. -/
theorem sbox_spec_vectors :
    sbox 0x00 = 0x63 ∧ sbox 0x55 = 0xFC ∧ sbox 0x01 = 0x7C ∧
    inv_sbox 0x00 = 0x52 ∧ inv_sbox 0x63 = 0x00 ∧ inv_sbox 0xFC = 0x55 ∧
    count_ones 0x63 = 4 ∧ count_ones 0xFC = 6 ∧
    gal2 0x80 = 0x1B ∧ gal3 0x80 = 0x9B := by
  decide

theorem buildBuffer_ok_iff {α : Type} (len : Nat) (host : List α) :
    buildBuffer len host = .ok () ↔ host.length = len ∧ len ≠ 0 := by
  unfold buildBuffer
  by_cases h1 : host.length = len
  · by_cases h2 : len = 0 <;> simp [h1, h2]
  · simp [h1]

theorem update_eq {α : Type} (e : OpenclCorrelationEngine α) (s0 : List α)
    (rest guesses : List (List α)) :
    e.update (s0 :: rest) guesses =
      if ((s0 :: rest).flatten).length ≠ e.sample_duration * s0.length then
        (e, .error .eShape)
      else if e.sample_duration * s0.length = 0 then (e, .error .eZeroSize)
      else if guesses.flatten.length ≠ e.n_guesses * s0.length then
        (e, .error .eShape)
      else if e.n_guesses * s0.length = 0 then (e, .error .eZeroSize)
      else ({ e with
                last_n := e.last_n + s0.length,
                enqueued := e.enqueued ++
                  [((s0 :: rest).flatten, guesses.flatten, s0.length, e.last_n)] },
             .ok ()) := by
  simp only [OpenclCorrelationEngine.update, buildBuffer]
  split_ifs <;> rfl

theorem update_ok_iff {α : Type} (e : OpenclCorrelationEngine α)
    (samples guesses : List (List α)) (e2 : OpenclCorrelationEngine α) :
    e.update samples guesses = (e2, .ok ()) ↔
      samples ≠ [] ∧
      samples.flatten.length = e.sample_duration * (samples.headD []).length ∧
      e.sample_duration * (samples.headD []).length ≠ 0 ∧
      guesses.flatten.length = e.n_guesses * (samples.headD []).length ∧
      e.n_guesses * (samples.headD []).length ≠ 0 ∧
      e2 = { e with
              last_n := e.last_n + (samples.headD []).length,
              enqueued := e.enqueued ++
                [(samples.flatten, guesses.flatten, (samples.headD []).length, e.last_n)] } := by
  cases samples with
  | nil => simp [OpenclCorrelationEngine.update]
  | cons s0 rest =>
    rw [update_eq]
    simp only [List.headD_cons]
    split_ifs with h1 h2 h3 h4
    · constructor
      · intro h; injection h with he hr; exact Except.noConfusion hr
      · rintro ⟨-, hlen, -, -, -, -⟩; exact absurd hlen h1
    · constructor
      · intro h; injection h with he hr; exact Except.noConfusion hr
      · rintro ⟨-, -, hnz, -, -, -⟩; exact absurd h2 hnz
    · constructor
      · intro h; injection h with he hr; exact Except.noConfusion hr
      · rintro ⟨-, -, -, hg, -, -⟩; exact absurd hg h3
    · constructor
      · intro h; injection h with he hr; exact Except.noConfusion hr
      · rintro ⟨-, -, -, -, hgnz, -⟩; exact absurd h4 hgnz
    · constructor
      · intro h
        injection h with he hr
        refine ⟨by simp, ?_, h2, ?_, h4, he.symm⟩
        · by_contra hc; exact h1 hc
        · by_contra hc; exact h3 hc
      · rintro ⟨-, -, -, -, -, he2⟩
        rw [he2]

theorem update_error_unchanged {α : Type} (e : OpenclCorrelationEngine α)
    (samples guesses : List (List α)) (err : CpaError)
    (h : (e.update samples guesses).2 = .error err) :
    (e.update samples guesses).1 = e := by
  cases samples with
  | nil => rfl
  | cons s0 rest =>
    rw [update_eq] at h ⊢
    split_ifs at h ⊢ <;> rfl

theorem flatten_length_of_rect {α : Type} (S : Nat) :
    ∀ l : List (List α), (∀ r ∈ l, r.length = S) → l.flatten.length = l.length * S := by
  intro l
  induction l with
  | nil => simp
  | cons x xs ih =>
    intro h
    simp only [List.flatten_cons, List.length_append, List.length_cons]
    rw [h x (by simp), ih (fun r hr => h r (by simp [hr]))]
    ring

theorem update_fst_dims {α : Type} (e : OpenclCorrelationEngine α)
    (samples guesses : List (List α)) :
    (e.update samples guesses).1.sample_duration = e.sample_duration ∧
    (e.update samples guesses).1.n_guesses = e.n_guesses := by
  cases samples with
  | nil => exact ⟨rfl, rfl⟩
  | cons s0 rest =>
    rw [update_eq]
    split_ifs <;> exact ⟨rfl, rfl⟩

theorem runUpdates_dims {α : Type}
    (batches : List (List (List α) × List (List α))) :
    ∀ e : OpenclCorrelationEngine α,
      (runUpdates e batches).sample_duration = e.sample_duration ∧
      (runUpdates e batches).n_guesses = e.n_guesses := by
  induction batches with
  | nil => intro e; exact ⟨rfl, rfl⟩
  | cons b bs ih =>
    intro e
    have h1 := update_fst_dims e b.1 b.2
    have h2 := ih (e.update b.1 b.2).1
    simp only [runUpdates]
    exact ⟨h2.1.trans h1.1, h2.2.trans h1.2⟩

theorem runUpdates_last_n {α : Type}
    (batches : List (List (List α) × List (List α))) :
    ∀ e : OpenclCorrelationEngine α, allUpdatesOk e batches = true →
      (runUpdates e batches).last_n =
        e.last_n + (batches.map fun b => (b.1.headD []).length).sum := by
  induction batches with
  | nil => intro e _; simp [runUpdates]
  | cons b bs ih =>
    intro e h
    simp only [allUpdatesOk] at h
    rcases hu : e.update b.1 b.2 with ⟨e2, r⟩
    rw [hu] at h
    cases r with
    | error err => simp at h
    | ok u =>
      cases u
      have he2 : e2 = { e with
          last_n := e.last_n + (b.1.headD []).length,
          enqueued := e.enqueued ++
            [(b.1.flatten, b.2.flatten, (b.1.headD []).length, e.last_n)] } :=
        ((update_ok_iff e b.1 b.2 e2).mp hu).2.2.2.2.2
      simp only [runUpdates, hu, List.map_cons, List.sum_cons]
      rw [ih e2 h, he2]
      simp
      omega

/-- C3: for every engine constructed with `new(T, H)` and every sequence of
successful `update` calls with batch sizes `S_1, ..., S_k` (the length of
the first row of each samples argument), the running trace count `last_n`
afterwards is `S_1 + ... + S_k`. -/
theorem c3_running_trace_count {α : Type} (T H : Nat)
    (e0 : OpenclCorrelationEngine α)
    (batches : List (List (List α) × List (List α)))
    (hnew : OpenclCorrelationEngine.new T H = .ok e0)
    (hok : allUpdatesOk e0 batches = true) :
    (runUpdates e0 batches).last_n =
      (batches.map fun b => (b.1.headD []).length).sum := by
  have h0 : e0.last_n = 0 := by
    unfold OpenclCorrelationEngine.new at hnew
    by_cases h : H * T = 0
    · rw [if_pos h] at hnew; cases hnew
    · rw [if_neg h] at hnew
      injection hnew with h2
      rw [← h2]
  rw [runUpdates_last_n batches e0 hok, h0, Nat.zero_add]

/-- Witness for C3: a `T = 1, H = 1` engine fed two successful batches of
sizes 1 and 2 ends with `last_n = 3`. -/
theorem c3_witness :
    OpenclCorrelationEngine.new (α := Nat) 1 1 = .ok ⟨1, 1, 0, []⟩ ∧
    allUpdatesOk (⟨1, 1, 0, []⟩ : OpenclCorrelationEngine Nat)
      [([[5]], [[7]]), ([[1, 2]], [[3, 4]])] = true ∧
    (runUpdates (⟨1, 1, 0, []⟩ : OpenclCorrelationEngine Nat)
      [([[5]], [[7]]), ([[1, 2]], [[3, 4]])]).last_n = 3 := by
  refine ⟨by decide, by decide, ?_⟩
  have := c3_running_trace_count 1 1 (⟨1, 1, 0, []⟩ : OpenclCorrelationEngine Nat)
    [([[5]], [[7]]), ([[1, 2]], [[3, 4]])] (by decide) (by decide)
  simpa using this

theorem rustChunksAux_spec {α : Type} (n : Nat) (hn : 0 < n) :
    ∀ (fuel : Nat) (l : List α), l.length ≤ fuel → n ∣ l.length →
      (rustChunksAux fuel n l).length = l.length / n ∧
      ∀ c ∈ rustChunksAux fuel n l, c.length = n := by
  intro fuel
  induction fuel with
  | zero =>
    intro l hl _
    have hnil : l = [] := List.eq_nil_of_length_eq_zero (by omega)
    subst hnil
    simp [rustChunksAux]
  | succ f ih =>
    intro l hl hd
    cases l with
    | nil => simp [rustChunksAux]
    | cons x xs =>
      have hlen : n ≤ (x :: xs).length := Nat.le_of_dvd (by simp) hd
      obtain ⟨k, hk⟩ := hd
      have hkpos : 0 < k := by
        by_contra hc
        push_neg at hc
        interval_cases k
        simp at hk
      obtain ⟨kp, rfl⟩ : ∃ kp, k = kp + 1 := ⟨k - 1, by omega⟩
      have hdroplen : ((x :: xs).drop n).length = n * kp := by
        rw [List.length_drop, hk, Nat.mul_succ]
        omega
      obtain ⟨ih1, ih2⟩ := ih ((x :: xs).drop n)
        (by rw [List.length_drop]; omega) ⟨kp, hdroplen⟩
      constructor
      · simp only [rustChunksAux, List.length_cons]
        rw [ih1, hdroplen, Nat.mul_div_cancel_left _ hn]
        have hxl : xs.length + 1 = n * (kp + 1) := by simpa using hk
        rw [hxl, Nat.mul_div_cancel_left _ hn]
      · intro c hc
        simp only [rustChunksAux] at hc
        rcases List.mem_cons.mp hc with h | h
        · subst h
          rw [List.length_take]
          simp only [List.length_cons] at hlen ⊢
          omega
        · exact ih2 c h

theorem readInto_length {α : Type} (dst src : List α) :
    (readInto dst src).length = dst.length := by
  simp only [readInto, List.length_append, List.length_take, List.length_drop]
  omega

/-- C4: for every engine constructed with `new(T, H)` and any sequence of
updates, a successful `get_result` returns a rectangular matrix of exactly
`H` rows, each of length `T`. -/
theorem c4_get_result_shape {α : Type} [Inhabited α] (T H : Nat)
    (e0 : OpenclCorrelationEngine α)
    (batches : List (List (List α) × List (List α))) (device : List α)
    (rows : List (List α))
    (hnew : OpenclCorrelationEngine.new T H = .ok e0)
    (hres : (runUpdates e0 batches).get_result device = .ok rows) :
    rows.length = H ∧ ∀ r ∈ rows, r.length = T := by
  have hTH : H * T ≠ 0 ∧ e0.sample_duration = T ∧ e0.n_guesses = H := by
    unfold OpenclCorrelationEngine.new at hnew
    by_cases h : H * T = 0
    · rw [if_pos h] at hnew; cases hnew
    · rw [if_neg h] at hnew
      injection hnew with h2
      rw [← h2]
      exact ⟨h, rfl, rfl⟩
  obtain ⟨hne, hT0, hH0⟩ := hTH
  have hdims := runUpdates_dims batches e0
  have hTe : (runUpdates e0 batches).sample_duration = T := by rw [hdims.1, hT0]
  have hHe : (runUpdates e0 batches).n_guesses = H := by rw [hdims.2, hH0]
  have hTpos : 0 < T := by
    rcases Nat.eq_zero_or_pos T with h | h
    · exact absurd (by rw [h, Nat.mul_zero]) hne
    · exact h
  unfold OpenclCorrelationEngine.get_result at hres
  rw [if_neg (by rw [hTe]; omega)] at hres
  injection hres with hrows
  rw [← hrows]
  unfold rustChunks
  rw [hTe, hHe]
  have hL : (readInto (List.replicate (H * T) (default : α)) device).length = H * T := by
    rw [readInto_length, List.length_replicate]
  have hspec := rustChunksAux_spec T hTpos
    (readInto (List.replicate (H * T) (default : α)) device).length
    (readInto (List.replicate (H * T) (default : α)) device)
    le_rfl (by rw [hL]; exact ⟨H, Nat.mul_comm H T⟩)
  refine ⟨?_, hspec.2⟩
  rw [hspec.1, hL, Nat.mul_div_cancel _ hTpos]

/-- Witness for C4: a `T = 2, H = 3` engine returns 3 rows of 2 values. -/
theorem c4_witness :
    OpenclCorrelationEngine.new (α := Nat) 2 3 = .ok ⟨2, 3, 0, []⟩ ∧
    (runUpdates (⟨2, 3, 0, []⟩ : OpenclCorrelationEngine Nat) []).get_result [] =
      .ok [[0, 0], [0, 0], [0, 0]] ∧
    ([[0, 0], [0, 0], [0, 0]] : List (List Nat)).length = 3 ∧
    (∀ r ∈ ([[0, 0], [0, 0], [0, 0]] : List (List Nat)), r.length = 2) := by
  refine ⟨by decide, by decide, ?_, ?_⟩ <;>
  · have := c4_get_result_shape 2 3 (⟨2, 3, 0, []⟩ : OpenclCorrelationEngine Nat)
      [] [] [[0, 0], [0, 0], [0, 0]] (by decide) (by decide)
    first
      | exact this.1
      | exact this.2

theorem new_ok_iff {α : Type} (T H : Nat) (e : OpenclCorrelationEngine α) :
    OpenclCorrelationEngine.new T H = .ok e ↔ H * T ≠ 0 ∧ e = ⟨T, H, 0, []⟩ := by
  unfold OpenclCorrelationEngine.new
  by_cases h : H * T = 0
  · rw [if_pos h]
    simp [h]
  · rw [if_neg h]
    constructor
    · intro hh
      injection hh with h2
      exact ⟨h, h2.symm⟩
    · rintro ⟨-, rfl⟩
      rfl

theorem update_eshape_iff {α : Type} (e : OpenclCorrelationEngine α)
    (s0 : List α) (rest guesses : List (List α)) :
    (e.update (s0 :: rest) guesses).2 = .error .eShape ↔
      ((s0 :: rest).flatten.length ≠ e.sample_duration * s0.length ∨
       ((s0 :: rest).flatten.length = e.sample_duration * s0.length ∧
        e.sample_duration * s0.length ≠ 0 ∧
        guesses.flatten.length ≠ e.n_guesses * s0.length)) := by
  rw [update_eq]
  split_ifs with h1 h2 h3 h4 <;> simp_all

/-- C1 (amended): for an engine constructed with `new(T, H)` and an update
call whose samples and guesses are rectangular with a common positive row
length `S`, samples nonempty, the call is rejected with `EShape` exactly
when the samples row count differs from `T` or the guesses row count
differs from `H`; and every rejected call leaves the engine state
unchanged. -/
theorem c1_update_shape_check {α : Type} (T H S : Nat)
    (e : OpenclCorrelationEngine α) (samples guesses : List (List α))
    (hnew : OpenclCorrelationEngine.new T H = .ok e)
    (hS : 0 < S) (hsne : samples ≠ [])
    (hrect : ∀ r ∈ samples, r.length = S)
    (hgrect : ∀ g ∈ guesses, g.length = S) :
    ((e.update samples guesses).2 = .error .eShape ↔
      (samples.length ≠ T ∨ guesses.length ≠ H)) ∧
    ∀ err, (e.update samples guesses).2 = .error err →
      (e.update samples guesses).1 = e := by
  refine ⟨?_, fun err h => update_error_unchanged e samples guesses err h⟩
  obtain ⟨hne0, rfl⟩ := (new_ok_iff T H e).mp hnew
  have hT : 0 < T := by
    rcases Nat.eq_zero_or_pos T with h | h
    · exact absurd (by rw [h, Nat.mul_zero]) hne0
    · exact h
  have hH : 0 < H := by
    rcases Nat.eq_zero_or_pos H with h | h
    · exact absurd (by rw [h, Nat.zero_mul]) hne0
    · exact h
  cases samples with
  | nil => exact absurd rfl hsne
  | cons s0 rest =>
    have hs0 : s0.length = S := hrect s0 (by simp)
    have hflat := flatten_length_of_rect S (s0 :: rest) hrect
    have hgflat := flatten_length_of_rect S guesses hgrect
    rw [update_eshape_iff]
    dsimp only
    rw [hflat, hs0, hgflat]
    have key1 : (s0 :: rest).length * S = T * S ↔ (s0 :: rest).length = T := by
      constructor
      · intro h; exact Nat.eq_of_mul_eq_mul_right hS h
      · intro h; rw [h]
    have key2 : T * S ≠ 0 := Nat.mul_ne_zero (by omega) (by omega)
    have key3 : guesses.length * S = H * S ↔ guesses.length = H := by
      constructor
      · intro h; exact Nat.eq_of_mul_eq_mul_right hS h
      · intro h; rw [h]
    constructor
    · rintro (h | ⟨-, -, h⟩)
      · exact Or.inl fun hc => h (key1.mpr hc)
      · exact Or.inr fun hc => h (key3.mpr hc)
    · rintro (h | h)
      · exact Or.inl fun hc => h (key1.mp hc)
      · by_cases hr : (s0 :: rest).length = T
        · exact Or.inr ⟨key1.mpr hr, key2, fun hc => h (key3.mp hc)⟩
        · exact Or.inl fun hc => hr (key1.mp hc)

/-- Counterexample to C1 as stated: on an engine with `T = 3, H = 1`, a
ragged samples argument with 2 rows (not 3) whose flattened length happens
to equal `T * samples[0].len() = 6` is accepted, not rejected. -/
theorem c1_counterexample :
    OpenclCorrelationEngine.new (α := Nat) 3 1 = .ok ⟨3, 1, 0, []⟩ ∧
    ([[1, 2], [3, 4, 5, 6]] : List (List Nat)).length ≠ 3 ∧
    (OpenclCorrelationEngine.update (⟨3, 1, 0, []⟩ : OpenclCorrelationEngine Nat)
      [[1, 2], [3, 4, 5, 6]] [[1, 2]]).2 = .ok () := by
  refine ⟨by decide, by decide, by decide⟩

/-- Witness for the amended C1: with `T = 2, H = 1` and a rectangular batch
of 3 sample rows and 1 guess row of length 1, the call is rejected with
`EShape` (3 ≠ 2) and the engine is unchanged. -/
theorem c1_witness :
    (0 : Nat) < 1 ∧
    (((OpenclCorrelationEngine.update (⟨2, 1, 0, []⟩ : OpenclCorrelationEngine Nat)
        [[9], [8], [7]] [[6]]).2 = .error .eShape ↔
      (([[9], [8], [7]] : List (List Nat)).length ≠ 2 ∨
       ([[6]] : List (List Nat)).length ≠ 1)) ∧
     ∀ err, (OpenclCorrelationEngine.update (⟨2, 1, 0, []⟩ : OpenclCorrelationEngine Nat)
        [[9], [8], [7]] [[6]]).2 = .error err →
      (OpenclCorrelationEngine.update (⟨2, 1, 0, []⟩ : OpenclCorrelationEngine Nat)
        [[9], [8], [7]] [[6]]).1 = ⟨2, 1, 0, []⟩) := by
  refine ⟨by decide, ?_⟩
  exact c1_update_shape_check 2 1 1 (⟨2, 1, 0, []⟩ : OpenclCorrelationEngine Nat)
    [[9], [8], [7]] [[6]] (by decide) (by decide) (by decide)
    (by decide) (by decide)

/-- C9: the update entry points are only defined on non-empty batches:
`OpenclCorrelationEngine::update` indexes `samples[0]` and panics on an
empty samples list, and `AssessmentSolver::update` (once the engine is
constructible) indexes `s_power_consumption[0]` and panics on an empty
payload batch, instead of returning an error. -/
theorem c9_empty_batch_panics
    (α : Type) (e : OpenclCorrelationEngine α) (guesses : List (List α))
    (cas : List Nat → List (List Nat) → List (List Nat))
    (t : AssessmentSolver) (m : PyArray2 ℝ)
    (hE : t.correlation_engine = none)
    (hT : 0 < m.ncols)
    (hH : 0 < (cas (List.replicate 16 0) t.keys).length) :
    (e.update [] guesses).2 = .error .ePanic ∧
    (AssessmentSolver.update cas t [] m).2 = .error .ePanic := by
  constructor
  · rfl
  · unfold AssessmentSolver.update
    rw [hE]
    dsimp only
    unfold OpenclCorrelationEngine.new
    have hcond : (cas (List.replicate 16 0) t.keys).length * m.ncols ≠ 0 :=
      Nat.mul_ne_zero (by omega) (by omega)
    rw [if_neg hcond]
    rfl

/-- Witness for C9 at a concrete engine, assessment solver and (spec-modelled)
`compute_all_states` instance. -/
theorem c9_witness :
    ((⟨1, 1, 0, []⟩ : OpenclCorrelationEngine Nat).update [] []).2 = .error .ePanic ∧
    (AssessmentSolver.update (fun _ keys => keys) ⟨none, [[0]]⟩ [] ⟨0, 1, []⟩).2 =
      .error .ePanic :=
  c9_empty_batch_panics Nat ⟨1, 1, 0, []⟩ [] (fun _ keys => keys) ⟨none, [[0]]⟩
    ⟨0, 1, []⟩ rfl (by decide) (by decide)

theorem listIndex_ok {α : Type} (l : List α) (i : Nat) (d : α) (h : i < l.length) :
    listIndex l i = .ok (l.getD i d) := by
  unfold listIndex
  rw [List.getElem?_eq_getElem h, List.getD_eq_getElem l d h]

/-- C5: for every payload, guess and index below 16, the `round0` estimate
is `HW(sbox(payload[index] XOR guess))` raised to `beta_modifier`; with
`beta = 1`, an all-zero payload, guess `0x00` and index 0 it is exactly 4.0,
and with `beta = 2`, an all-`0xFF` payload, guess `0xAA` and index 0 it is
exactly 36.0. -/
theorem c5_round0_estimate (beta : ℝ) (payload : List Nat) (guess index : Nat)
    (hp : payload.length = 16) (hi : index < 16) :
    ConsumptionModelRound0.estimate ⟨beta⟩ payload guess index =
      .ok ((count_ones (sbox (payload.getD index 0 ^^^ guess)) : ℝ) ^ beta) ∧
    ConsumptionModelRound0.estimate ⟨1⟩ (List.replicate 16 0x00) 0x00 0 = .ok 4 ∧
    ConsumptionModelRound0.estimate ⟨2⟩ (List.replicate 16 0xFF) 0xAA 0 = .ok 36 := by
  refine ⟨?_, ?_, ?_⟩
  · unfold ConsumptionModelRound0.estimate
    rw [listIndex_ok payload index 0 (by omega)]
    rfl
  · have h1 : ConsumptionModelRound0.estimate ⟨1⟩ (List.replicate 16 0x00) 0x00 0 =
        .ok ((count_ones (sbox (0x00 ^^^ 0x00)) : ℝ) ^ (1 : ℝ)) := rfl
    rw [h1, show count_ones (sbox (0x00 ^^^ 0x00)) = 4 from by decide]
    norm_num [Real.rpow_one]
  · have h2 : ConsumptionModelRound0.estimate ⟨2⟩ (List.replicate 16 0xFF) 0xAA 0 =
        .ok ((count_ones (sbox (0xFF ^^^ 0xAA)) : ℝ) ^ (2 : ℝ)) := rfl
    rw [h2, show count_ones (sbox (0xFF ^^^ 0xAA)) = 6 from by decide]
    rw [show (2 : ℝ) = ((2 : ℕ) : ℝ) by norm_num, Real.rpow_natCast]
    norm_num

/-- Witness for C5 at `beta = 1`, all-zero payload, guess 0, index 0. -/
theorem c5_witness :
    (List.replicate 16 0x00 : List Nat).length = 16 ∧
    ConsumptionModelRound0.estimate ⟨1⟩ (List.replicate 16 0x00) 0x00 0 = .ok 4 := by
  refine ⟨by decide, ?_⟩
  exact (c5_round0_estimate 1 (List.replicate 16 0x00) 0x00 0 (by decide) (by decide)).2.1

theorem mix_columns_inv_length (s : List Nat) : (mix_columns_inv s).length = 16 := by
  simp [mix_columns_inv]

/-- C6: for every payload, guess and index below 16, the `round1dectable`
estimate is the Hamming weight of the 32-bit packed T-table row on
`i = inv_sbox(Mp[index] XOR guess)`, raised to `beta_modifier`, with
`Mp = MixColumnsInv(SubBytesInv(ShiftRowsInv(AddRoundKey(payload, tk0))))`
applied in exactly that order. -/
theorem c6_round1dectable_estimate (tk0 : List Nat) (beta : ℝ)
    (payload : List Nat) (guess index : Nat) (hi : index < 16) :
    ConsumptionModelRound1DecTable.estimate ⟨beta, tk0⟩ payload guess index =
      .ok ((count_ones (ttable_pack (inv_sbox
        ((mix_columns_inv (sub_bytes_inv (shift_rows_inv
          (add_round_key payload tk0)))).getD index 0 ^^^ guess))) : ℝ) ^ beta) := by
  unfold ConsumptionModelRound1DecTable.estimate
  dsimp only
  rw [listIndex_ok _ index 0 (by rw [mix_columns_inv_length]; omega)]
  rfl

/-- Witness for C6 at concrete all-zero inputs. -/
theorem c6_witness :
    ConsumptionModelRound1DecTable.estimate ⟨1, List.replicate 16 0⟩
      (List.replicate 16 0) 0 0 =
      .ok ((count_ones (ttable_pack (inv_sbox
        ((mix_columns_inv (sub_bytes_inv (shift_rows_inv
          (add_round_key (List.replicate 16 0) (List.replicate 16 0))))).getD 0 0
          ^^^ 0))) : ℝ) ^ (1 : ℝ)) :=
  c6_round1dectable_estimate (List.replicate 16 0) 1 (List.replicate 16 0) 0 0 (by decide)

/-- C7: constructing an attack solver with an unknown model name, or with
`round1` (resp. `round1dectable`) and a missing, ill-typed or non-16-byte
`k0` (resp. `tk0`), fails with a caller `PyTypeError` and no solver is
created; a valid configuration yields a solver with no correlation engine,
so the accelerator is not touched. -/
theorem c7_construction_validation (name : String) (k : Nat) (beta : ℝ)
    (kwargs : Option PyDict) (d : PyDict) (b : List Nat) :
    (name ∉ ["round0", "round0dectable", "round1", "round1dectable"] →
      CpaSolver.new name k beta kwargs = .error (.eConfig "Unknown model name")) ∧
    (CpaSolver.new "round1" k beta none = .error (.eConfig "Missing argument k0")) ∧
    (d.lookup "k0" = none →
      CpaSolver.new "round1" k beta (some d) = .error (.eConfig "Missing argument k0")) ∧
    (d.lookup "k0" = some .other →
      CpaSolver.new "round1" k beta (some d) = .error (.eConfig "k0 has invalid type")) ∧
    (d.lookup "k0" = some (.bytes b) → b.length ≠ 16 →
      CpaSolver.new "round1" k beta (some d) = .error (.eConfig "k0 must be 16 bytes long")) ∧
    (d.lookup "k0" = some (.bytes b) → b.length = 16 →
      CpaSolver.new "round1" k beta (some d) = .ok ⟨none, .round1 ⟨beta, b⟩, k⟩) ∧
    (CpaSolver.new "round1dectable" k beta none = .error (.eConfig "Missing argument tk0")) ∧
    (d.lookup "tk0" = none →
      CpaSolver.new "round1dectable" k beta (some d) =
        .error (.eConfig "Missing argument tk0")) ∧
    (d.lookup "tk0" = some .other →
      CpaSolver.new "round1dectable" k beta (some d) =
        .error (.eConfig "tk0 has invalid type")) ∧
    (d.lookup "tk0" = some (.bytes b) → b.length ≠ 16 →
      CpaSolver.new "round1dectable" k beta (some d) =
        .error (.eConfig "tk0 must be 16 bytes long")) ∧
    (d.lookup "tk0" = some (.bytes b) → b.length = 16 →
      CpaSolver.new "round1dectable" k beta (some d) =
        .ok ⟨none, .round1dectable ⟨beta, b⟩, k⟩) ∧
    (CpaSolver.new "round0" k beta kwargs = .ok ⟨none, .round0 ⟨beta⟩, k⟩) ∧
    (CpaSolver.new "round0dectable" k beta kwargs =
      .ok ⟨none, .round0dectable ⟨beta⟩, k⟩) := by
  refine ⟨?_, ?_, ?_, ?_, ?_, ?_, ?_, ?_, ?_, ?_, ?_, ?_, ?_⟩
  · intro h
    have h1 : name ≠ "round0" := fun hc => h (by simp [hc])
    have h2 : name ≠ "round0dectable" := fun hc => h (by simp [hc])
    have h3 : name ≠ "round1" := fun hc => h (by simp [hc])
    have h4 : name ≠ "round1dectable" := fun hc => h (by simp [hc])
    simp [CpaSolver.new, get_power_consumption_model, h1, h2, h3, h4]
  · simp [CpaSolver.new, get_power_consumption_model]
  · intro hl
    simp [CpaSolver.new, get_power_consumption_model, hl]
  · intro hl
    simp [CpaSolver.new, get_power_consumption_model, hl]
  · intro hl hlen
    simp [CpaSolver.new, get_power_consumption_model, hl, hlen]
  · intro hl hlen
    simp [CpaSolver.new, get_power_consumption_model, hl, hlen]
  · simp [CpaSolver.new, get_power_consumption_model]
  · intro hl
    simp [CpaSolver.new, get_power_consumption_model, hl]
  · intro hl
    simp [CpaSolver.new, get_power_consumption_model, hl]
  · intro hl hlen
    simp [CpaSolver.new, get_power_consumption_model, hl, hlen]
  · intro hl hlen
    simp [CpaSolver.new, get_power_consumption_model, hl, hlen]
  · simp [CpaSolver.new, get_power_consumption_model]
  · simp [CpaSolver.new, get_power_consumption_model]

/-- Witness for C7: an unknown name is rejected, a missing `k0` is
rejected, and a well-formed `round1` configuration yields an engineless
solver. -/
theorem c7_witness :
    CpaSolver.new "foo" 0 1 none = .error (.eConfig "Unknown model name") ∧
    CpaSolver.new "round1" 0 1 none = .error (.eConfig "Missing argument k0") ∧
    CpaSolver.new "round1" 0 1 (some [("k0", .bytes (List.replicate 16 0))]) =
      .ok ⟨none, .round1 ⟨1, List.replicate 16 0⟩, 0⟩ := by
  have hthm := c7_construction_validation "foo" 0 1 none
    [("k0", PyObj.bytes (List.replicate 16 0))] (List.replicate 16 0)
  refine ⟨hthm.1 (by decide), hthm.2.1, ?_⟩
  exact hthm.2.2.2.2.2.1 (by decide) (by decide)

/-- C10: `CpaSolver` construction stores `k_index` unvalidated (any value,
including 16 and above, is accepted with a valid model name); an
out-of-range `k_index` then surfaces as an out-of-bounds panic inside the
model's `estimate` during the first update, after the engine has already
been constructed. -/
theorem c10_k_index_unvalidated (k_index : Nat) (beta : ℝ)
    (kwargs : Option PyDict) (p : List Nat) (ps : List (List Nat))
    (m : PyArray2 ℝ)
    (hk : 16 ≤ k_index) (hp : p.length = 16) (hT : 0 < m.ncols) :
    CpaSolver.new "round0" k_index beta kwargs = .ok ⟨none, .round0 ⟨beta⟩, k_index⟩ ∧
    (CpaSolver.update ⟨none, .round0 ⟨beta⟩, k_index⟩ (p :: ps) m).2 = .error .ePanic ∧
    (CpaSolver.update ⟨none, .round0 ⟨beta⟩, k_index⟩ (p :: ps) m).1.correlation_engine =
      some ⟨m.ncols, 256, 0, []⟩ := by
  have hidx : p[k_index]? = none := List.getElem?_eq_none (by omega)
  have hest : ConsumptionModel.estimate (.round0 ⟨beta⟩) p 0 k_index = .error .ePanic := by
    simp only [ConsumptionModel.estimate, ConsumptionModelRound0.estimate, listIndex, hidx]
    rfl
  have hinner : mapExcept
      (fun c => ConsumptionModel.estimate (.round0 ⟨beta⟩) c 0 k_index) (p :: ps) =
      .error .ePanic := by
    unfold mapExcept
    rw [hest]
    rfl
  have houter : mapExcept
      (fun i => mapExcept
        (fun c => ConsumptionModel.estimate (.round0 ⟨beta⟩) c i k_index) (p :: ps))
      (List.range 256) = .error .ePanic := by
    rw [show (256 : Nat) = 255 + 1 from rfl, List.range_succ_eq_map]
    unfold mapExcept
    rw [hinner]
    rfl
  have hcond : (256 : Nat) * m.ncols ≠ 0 := Nat.mul_ne_zero (by omega) (by omega)
  have hupd : CpaSolver.update ⟨none, .round0 ⟨beta⟩, k_index⟩ (p :: ps) m =
      (⟨some ⟨m.ncols, 256, 0, []⟩, .round0 ⟨beta⟩, k_index⟩, .error .ePanic) := by
    unfold CpaSolver.update
    dsimp only
    unfold OpenclCorrelationEngine.new
    rw [if_neg hcond]
    unfold cpaUpdateBody
    dsimp only
    rw [houter]
  refine ⟨by simp [CpaSolver.new, get_power_consumption_model], ?_, ?_⟩
  · rw [hupd]
  · rw [hupd]

/-- Witness for C10 at `k_index = 16`. -/
theorem c10_witness :
    CpaSolver.new "round0" 16 1 none = .ok ⟨none, .round0 ⟨1⟩, 16⟩ ∧
    (CpaSolver.update ⟨none, .round0 ⟨1⟩, 16⟩ [List.replicate 16 0] ⟨1, 1, [[0]]⟩).2 =
      .error .ePanic := by
  have hthm := c10_k_index_unvalidated 16 1 none (List.replicate 16 0) []
    ⟨1, 1, [[0]]⟩ (by decide) (by decide) (by decide)
  exact ⟨hthm.1, hthm.2.1⟩

theorem engine_get_result_ok {α : Type} [Inhabited α] (e : OpenclCorrelationEngine α)
    (dev : List α) (h : e.sample_duration ≠ 0) :
    ∃ rows, e.get_result dev = .ok rows := by
  unfold OpenclCorrelationEngine.get_result
  rw [if_neg h]
  exact ⟨_, rfl⟩

theorem engine_update_ok_sample_duration {α : Type} (e e2 : OpenclCorrelationEngine α)
    (samples guesses : List (List α)) (h : e.update samples guesses = (e2, .ok ())) :
    e2.sample_duration = e.sample_duration ∧ e.sample_duration ≠ 0 := by
  obtain ⟨-, -, hnz, -, -, he2⟩ := (update_ok_iff e samples guesses e2).mp h
  constructor
  · rw [he2]
  · intro hc
    exact hnz (by rw [hc, Nat.zero_mul])

theorem cpaUpdateBody_ok_engine (s : CpaSolver) (eng : OpenclCorrelationEngine ℝ)
    (payloads : List (List Nat)) (m : PyArray2 ℝ) (s2 : CpaSolver)
    (h : cpaUpdateBody s eng payloads m = (s2, .ok ())) :
    ∃ eng2, s2.correlation_engine = some eng2 ∧ eng2.sample_duration ≠ 0 := by
  unfold cpaUpdateBody at h
  rcases hm : mapExcept
      (fun i => mapExcept
        (fun c => s.power_consumption_model.estimate c i s.k_index) payloads)
      (List.range 256) with err | guesses
  · simp only [hm] at h
    injection h with h1 h2
    exact absurd h2 (by simp)
  · simp only [hm] at h
    rcases hu : eng.update m.columns guesses with ⟨eng2, r⟩
    simp only [hu] at h
    injection h with h1 h2
    subst h2
    have hd := engine_update_ok_sample_duration eng eng2 m.columns guesses hu
    refine ⟨eng2, ?_, ?_⟩
    · rw [← h1]
    · rw [hd.1]
      exact hd.2

theorem assessmentUpdateBody_ok_engine
    (cas : List Nat → List (List Nat) → List (List Nat))
    (s : AssessmentSolver) (eng : OpenclCorrelationEngine ℝ)
    (payloads : List (List Nat)) (m : PyArray2 ℝ) (s2 : AssessmentSolver)
    (h : assessmentUpdateBody cas s eng payloads m = (s2, .ok ())) :
    ∃ eng2, s2.correlation_engine = some eng2 ∧ eng2.sample_duration ≠ 0 := by
  unfold assessmentUpdateBody at h
  rcases hsp : payloads.map (fun c => (cas c s.keys).map state_hamming_weight)
    with _ | ⟨h0, rest⟩
  · simp only [hsp] at h
    injection h with h1 h2
    exact absurd h2 (by simp)
  · simp only [hsp] at h
    rcases hu : eng.update m.columns
      ((List.range h0.length).map fun x => (h0 :: rest).map fun row => row.getD x 0)
      with ⟨eng2, r⟩
    simp only [hu] at h
    injection h with h1 h2
    subst h2
    have hd := engine_update_ok_sample_duration eng eng2 m.columns _ hu
    refine ⟨eng2, ?_, ?_⟩
    · rw [← h1]
    · rw [hd.1]
      exact hd.2

theorem cpa_update_ok_engine (s : CpaSolver) (payloads : List (List Nat))
    (m : PyArray2 ℝ) (s2 : CpaSolver)
    (h : CpaSolver.update s payloads m = (s2, .ok ())) :
    ∃ eng2, s2.correlation_engine = some eng2 ∧ eng2.sample_duration ≠ 0 := by
  unfold CpaSolver.update at h
  cases hE : s.correlation_engine with
  | some eng =>
    rw [hE] at h
    exact cpaUpdateBody_ok_engine s eng payloads m s2 h
  | none =>
    rw [hE] at h
    rcases hn : OpenclCorrelationEngine.new (α := ℝ) m.ncols 256 with err | eng
    · simp only [hn] at h
      injection h with h1 h2
      exact absurd h2 (by simp)
    · simp only [hn] at h
      exact cpaUpdateBody_ok_engine _ eng payloads m s2 h

theorem assessment_update_ok_engine
    (cas : List Nat → List (List Nat) → List (List Nat))
    (t : AssessmentSolver) (payloads : List (List Nat)) (m : PyArray2 ℝ)
    (t2 : AssessmentSolver)
    (h : AssessmentSolver.update cas t payloads m = (t2, .ok ())) :
    ∃ eng2, t2.correlation_engine = some eng2 ∧ eng2.sample_duration ≠ 0 := by
  unfold AssessmentSolver.update at h
  cases hE : t.correlation_engine with
  | some eng =>
    rw [hE] at h
    exact assessmentUpdateBody_ok_engine cas t eng payloads m t2 h
  | none =>
    rw [hE] at h
    rcases hn : OpenclCorrelationEngine.new (α := ℝ) m.ncols
        (cas (List.replicate 16 0) t.keys).length with err | eng
    · simp only [hn] at h
      injection h with h1 h2
      exact absurd h2 (by simp)
    · simp only [hn] at h
      exact assessmentUpdateBody_ok_engine cas _ eng payloads m t2 h

/-- C2 (amended): for both solvers, `get_result` fails — with the `EEmpty`
("No results") error — exactly while no `update` call has constructed the
correlation engine.  In particular it fails on a fresh solver and succeeds
after any update call whose engine update succeeded; but (divergence from
the claim as stated) it also succeeds after a failed first update call that
got as far as constructing the engine. -/
theorem c2_get_result_vs_engine (dev : List ℝ) (s : CpaSolver)
    (payloads : List (List Nat)) (m : PyArray2 ℝ)
    (t : AssessmentSolver) (cas : List Nat → List (List Nat) → List (List Nat))
    (payloads2 : List (List Nat)) (m2 : PyArray2 ℝ) :
    (s.get_result dev = .error .eEmpty ↔ s.correlation_engine = none) ∧
    (t.get_result dev = .error .eEmpty ↔ t.correlation_engine = none) ∧
    ((CpaSolver.update s payloads m).2 = .ok () →
      ∃ rows, (CpaSolver.update s payloads m).1.get_result dev = .ok rows) ∧
    ((AssessmentSolver.update cas t payloads2 m2).2 = .ok () →
      ∃ rows, (AssessmentSolver.update cas t payloads2 m2).1.get_result dev = .ok rows) := by
  refine ⟨?_, ?_, ?_, ?_⟩
  · cases hE : s.correlation_engine with
    | none => simp [CpaSolver.get_result, hE]
    | some eng =>
      simp only [CpaSolver.get_result, hE]
      constructor
      · intro h
        unfold OpenclCorrelationEngine.get_result at h
        split_ifs at h <;> simp at h
      · intro h
        simp at h
  · cases hE : t.correlation_engine with
    | none => simp [AssessmentSolver.get_result, hE]
    | some eng =>
      simp only [AssessmentSolver.get_result, hE]
      constructor
      · intro h
        unfold OpenclCorrelationEngine.get_result at h
        split_ifs at h <;> simp at h
      · intro h
        simp at h
  · intro hok
    rcases hu : CpaSolver.update s payloads m with ⟨s2, r⟩
    rw [hu] at hok
    simp only at hok
    subst hok
    obtain ⟨eng2, he, hd⟩ := cpa_update_ok_engine s payloads m s2 hu
    show ∃ rows, s2.get_result dev = .ok rows
    unfold CpaSolver.get_result
    simp only [he]
    exact engine_get_result_ok eng2 dev hd
  · intro hok
    rcases hu : AssessmentSolver.update cas t payloads2 m2 with ⟨t2, r⟩
    rw [hu] at hok
    simp only at hok
    subst hok
    obtain ⟨eng2, he, hd⟩ := assessment_update_ok_engine cas t payloads2 m2 t2 hu
    show ∃ rows, t2.get_result dev = .ok rows
    unfold AssessmentSolver.get_result
    simp only [he]
    exact engine_get_result_ok eng2 dev hd

/-- Counterexample to C2 as stated: a solver built with `k_index = 16`
(accepted, see C10) runs a first update that constructs the engine and then
panics — so no update call has ever succeeded — yet the subsequent
`get_result` succeeds, returning the (uninitialised) 256-row result. -/
theorem c2_counterexample :
    (CpaSolver.update ⟨none, .round0 ⟨1⟩, 16⟩ [List.replicate 16 0] ⟨1, 1, [[0]]⟩).2 =
      .error .ePanic ∧
    (CpaSolver.update ⟨none, .round0 ⟨1⟩, 16⟩ [List.replicate 16 0]
      ⟨1, 1, [[0]]⟩).1.get_result [] = .ok (List.replicate 256 [(default : ℝ)]) := by
  exact ⟨rfl, rfl⟩

/-- Witness for the amended C2 at concrete solvers: a fresh attack solver's
`get_result` fails with `EEmpty`, and after a successful assessment update
`get_result` succeeds. -/
theorem c2_witness :
    (CpaSolver.get_result ⟨none, .round0 ⟨1⟩, 0⟩ [] = .error .eEmpty ↔
      (⟨none, .round0 ⟨1⟩, 0⟩ : CpaSolver).correlation_engine = none) ∧
    ((AssessmentSolver.update (fun _ keys => keys) ⟨none, [[3]]⟩
        [List.replicate 16 0] ⟨1, 1, [[0]]⟩).2 = .ok ()) ∧
    (∃ rows, (AssessmentSolver.update (fun _ keys => keys) ⟨none, [[3]]⟩
        [List.replicate 16 0] ⟨1, 1, [[0]]⟩).1.get_result [] = .ok rows) := by
  have hthm := c2_get_result_vs_engine [] ⟨none, .round0 ⟨1⟩, 0⟩ [] ⟨0, 0, []⟩
    ⟨none, [[3]]⟩ (fun _ keys => keys) [List.replicate 16 0] ⟨1, 1, [[0]]⟩
  exact ⟨hthm.1, rfl, hthm.2.2.2 rfl⟩

theorem mapExcept_ok {α β ε : Type} (f : α → Except ε β) (g : α → β) :
    ∀ l : List α, (∀ a ∈ l, f a = .ok (g a)) → mapExcept f l = .ok (l.map g) := by
  intro l
  induction l with
  | nil => intro _; rfl
  | cons x xs ih =>
    intro h
    unfold mapExcept
    rw [h x (by simp), ih (fun a ha => h a (by simp [ha]))]
    rfl

theorem mix_columns_length (s : List Nat) : (mix_columns s).length = 16 := by
  simp [mix_columns]

theorem estimate_ok (mo : ConsumptionModel) (p : List Nat) (g i : Nat)
    (hp : p.length = 16) (hi : i < 16) (hw : mo.wfKeys) :
    mo.estimate p g i = .ok (mo.estimateVal p g i) := by
  cases mo with
  | round0 mm =>
    unfold ConsumptionModel.estimate ConsumptionModel.estimateVal
      ConsumptionModelRound0.estimate
    dsimp only
    rw [listIndex_ok p i 0 (by omega)]
    rfl
  | round0dectable mm =>
    unfold ConsumptionModel.estimate ConsumptionModel.estimateVal
      ConsumptionModelRound0DecTable.estimate
    dsimp only
    rw [listIndex_ok p i 0 (by omega)]
    rfl
  | round1dectable mm =>
    unfold ConsumptionModel.estimate ConsumptionModel.estimateVal
      ConsumptionModelRound1DecTable.estimate
    dsimp only
    rw [listIndex_ok _ i 0 (by rw [mix_columns_inv_length]; omega)]
    rfl
  | round1 mm =>
    simp only [ConsumptionModel.wfKeys] at hw
    unfold ConsumptionModel.estimate ConsumptionModel.estimateVal
      ConsumptionModelRound1.estimate
    dsimp only
    have h1 := listIndex_ok (mix_columns (shift_rows (sub_bytes (add_round_key p mm.k0))))
      i 0 (by rw [mix_columns_length]; omega)
    have h2 := listIndex_ok p i 0 (by omega)
    have h3 := listIndex_ok mm.k0 i 0 (by rw [hw]; omega)
    simp only [h1, h2, h3]
    rfl

theorem columns_length {α : Type} [Inhabited α] (m : PyArray2 α) :
    m.columns.length = m.ncols := by
  simp [PyArray2.columns]

theorem columns_rect {α : Type} [Inhabited α] (m : PyArray2 α)
    (hm : m.entries.length = m.nrows) :
    ∀ col ∈ m.columns, col.length = m.nrows := by
  intro col hc
  simp only [PyArray2.columns, List.mem_map] at hc
  obtain ⟨t, -, rfl⟩ := hc
  simp [hm]

theorem columns_headD {α : Type} [Inhabited α] (m : PyArray2 α) (hT : 0 < m.ncols) :
    m.columns.headD [] = m.entries.map fun row => row.getD 0 default := by
  unfold PyArray2.columns
  obtain ⟨k, hk⟩ : ∃ k, m.ncols = k + 1 := ⟨m.ncols - 1, by omega⟩
  rw [hk, List.range_succ_eq_map]
  rfl

theorem columns_entry {α : Type} [Inhabited α] (m : PyArray2 α)
    (hm : m.entries.length = m.nrows) (t s0 : Nat)
    (ht : t < m.ncols) (hs : s0 < m.nrows) :
    (m.columns.getD t []).getD s0 default =
      (m.entries.getD s0 []).getD t default := by
  have hs2 : s0 < m.entries.length := by rw [hm]; exact hs
  have hcol : m.columns.getD t [] = m.entries.map fun row => row.getD t default := by
    unfold PyArray2.columns
    have htl : t < ((List.range m.ncols).map fun u =>
        m.entries.map fun row => row.getD u default).length := by
      simpa using ht
    rw [List.getD_eq_getElem _ [] htl, List.getElem_map, List.getElem_range]
  rw [hcol]
  have hsl : s0 < (m.entries.map fun row => row.getD t default).length := by
    simpa using hs2
  rw [List.getD_eq_getElem _ default hsl, List.getElem_map,
    List.getD_eq_getElem m.entries [] hs2]

/-- C8: on the first update call of an attack solver, the correlation
engine is constructed lazily with `H = 256` and `T = samples.cols`; the
hypothesis matrix handed to the engine is
`Y[h][s] = model.estimate(payloads[s], h, k_index)` for `h ∈ 0..256`, and
the samples matrix is forwarded transposed, from shape `(S, T)` to
time-major `(T, S)`. -/
theorem c8_first_update (s : CpaSolver) (payloads : List (List Nat))
    (m : PyArray2 ℝ)
    (hE : s.correlation_engine = none)
    (hm1 : m.entries.length = m.nrows)
    (hT : 0 < m.ncols) (hS : 0 < m.nrows)
    (hlen : payloads.length = m.nrows)
    (hp : ∀ p ∈ payloads, p.length = 16)
    (hk : s.k_index < 16)
    (hwkeys : s.power_consumption_model.wfKeys) :
    (CpaSolver.update s payloads m).2 = .ok () ∧
    (CpaSolver.update s payloads m).1.correlation_engine = some
      ⟨m.ncols, 256, m.nrows,
        [(m.columns.flatten,
          ((List.range 256).map fun g => payloads.map fun c =>
            s.power_consumption_model.estimateVal c g s.k_index).flatten,
          m.nrows, 0)]⟩ ∧
    (∀ g c, c ∈ payloads →
      s.power_consumption_model.estimate c g s.k_index =
        .ok (s.power_consumption_model.estimateVal c g s.k_index)) ∧
    m.columns.length = m.ncols ∧
    (∀ col ∈ m.columns, col.length = m.nrows) ∧
    (∀ t u, t < m.ncols → u < m.nrows →
      (m.columns.getD t []).getD u 0 = (m.entries.getD u []).getD t 0) := by
  have hest : ∀ g c, c ∈ payloads →
      s.power_consumption_model.estimate c g s.k_index =
        .ok (s.power_consumption_model.estimateVal c g s.k_index) :=
    fun g c hc => estimate_ok _ c g s.k_index (hp c hc) (by omega) hwkeys
  have hguesses : mapExcept (fun i => mapExcept
      (fun c => s.power_consumption_model.estimate c i s.k_index) payloads)
      (List.range 256) =
      .ok ((List.range 256).map fun g => payloads.map fun c =>
        s.power_consumption_model.estimateVal c g s.k_index) := by
    apply mapExcept_ok
    intro a _
    apply mapExcept_ok
    intro c hc
    exact hest a c hc
  have hcond : (256 : Nat) * m.ncols ≠ 0 := Nat.mul_ne_zero (by omega) (by omega)
  have hclen : m.columns.length = m.ncols := columns_length m
  have hcrect : ∀ col ∈ m.columns, col.length = m.nrows := columns_rect m hm1
  have hcne : m.columns ≠ [] := by
    intro hc
    have h0 := hclen
    rw [hc] at h0
    simp at h0
    omega
  have hhead : (m.columns.headD []).length = m.nrows := by
    rw [columns_headD m hT]
    simp [hm1]
  have hYrect : ∀ r ∈ ((List.range 256).map fun g => payloads.map fun c =>
      s.power_consumption_model.estimateVal c g s.k_index), r.length = m.nrows := by
    intro r hr
    simp only [List.mem_map] at hr
    obtain ⟨g, -, rfl⟩ := hr
    simp [hlen]
  have hsflat : m.columns.flatten.length = m.ncols * m.nrows := by
    rw [flatten_length_of_rect m.nrows m.columns hcrect, hclen]
  have hYflat : ((List.range 256).map fun g => payloads.map fun c =>
      s.power_consumption_model.estimateVal c g s.k_index).flatten.length =
      256 * m.nrows := by
    rw [flatten_length_of_rect m.nrows _ hYrect]
    simp
  have hupd : OpenclCorrelationEngine.update ⟨m.ncols, 256, 0, []⟩ m.columns
      ((List.range 256).map fun g => payloads.map fun c =>
        s.power_consumption_model.estimateVal c g s.k_index) =
      (⟨m.ncols, 256, m.nrows,
        [(m.columns.flatten,
          ((List.range 256).map fun g => payloads.map fun c =>
            s.power_consumption_model.estimateVal c g s.k_index).flatten,
          m.nrows, 0)]⟩, .ok ()) := by
    apply (update_ok_iff _ m.columns _ _).mpr
    dsimp only
    refine ⟨hcne, ?_, ?_, ?_, ?_, ?_⟩
    · rw [hsflat, hhead]
    · rw [hhead]
      exact Nat.mul_ne_zero (by omega) (by omega)
    · rw [hYflat, hhead]
    · rw [hhead]
      exact Nat.mul_ne_zero (by omega) (by omega)
    · rw [hhead]
      simp
  have hfull : CpaSolver.update s payloads m =
      (⟨some ⟨m.ncols, 256, m.nrows,
          [(m.columns.flatten,
            ((List.range 256).map fun g => payloads.map fun c =>
              s.power_consumption_model.estimateVal c g s.k_index).flatten,
            m.nrows, 0)]⟩,
        s.power_consumption_model, s.k_index⟩, .ok ()) := by
    unfold CpaSolver.update
    rw [hE]
    dsimp only
    unfold OpenclCorrelationEngine.new
    rw [if_neg hcond]
    unfold cpaUpdateBody
    dsimp only
    rw [hguesses]
    dsimp only
    rw [hupd]
  refine ⟨?_, ?_, hest, hclen, hcrect, ?_⟩
  · rw [hfull]
  · rw [hfull]
  · intro t u ht hu
    have hce := columns_entry m hm1 t u ht hu
    have hd0 : (default : ℝ) = 0 := rfl
    rw [hd0] at hce
    exact hce

/-- Witness for C8: a fresh `round0` solver with one payload and a 1-by-1
sample matrix updates successfully. -/
theorem c8_witness :
    (CpaSolver.update ⟨none, .round0 ⟨1⟩, 0⟩ [List.replicate 16 0]
      ⟨1, 1, [[(0 : ℝ)]]⟩).2 = .ok () :=
  (c8_first_update ⟨none, .round0 ⟨1⟩, 0⟩ [List.replicate 16 0] ⟨1, 1, [[(0 : ℝ)]]⟩
    rfl rfl (by decide) (by decide) (by decide) (by decide) (by decide) trivial).1
